import Mathlib

/-!
Verification model of `vtkGDALRasterReader.cxx` (IO/GDAL module).

The C++ source is shallowly embedded: `double` is modelled by `ℚ` (the values
manipulated here are exact decimal/integer quantities; the `static_cast` of a
no-data double into the raw pixel type is modelled as exact), C++ `int` by `ℤ`
or by `ℕ` for quantities that are non-negative by construction (loop counters,
buffer indices, raster sizes returned by GDAL), `std::vector` by `List`, and
out-of-range accesses (undefined behaviour in C++) by `Option`-valued results.
The GDAL library is the external collaborator: a `GDALDataset` value packages
exactly the answers GDAL gives the reader (band list, color interpretation,
no-data flags, windowed-read results, geotransform, GCPs, color tables).
Mutated member state (`this->...`) is passed and returned explicitly.
-/

namespace GDALModel

/-- Status codes returned by GDAL calls (`CPLErr`); only success/failure are
relevant to the reader. -/
inductive CPLErr where
  | CE_None
  | CE_Failure
deriving DecidableEq, Repr

/-- Color interpretation of a raster band (`GDALColorInterp`). -/
inductive ColorInterp where
  | GCI_Undefined
  | GCI_GrayIndex
  | GCI_PaletteIndex
  | GCI_RedBand
  | GCI_GreenBand
  | GCI_BlueBand
  | GCI_AlphaBand
  | GCI_YCbCr_YBand
  | GCI_YCbCr_CbBand
  | GCI_YCbCr_CrBand
deriving DecidableEq, Repr

/-- Raster pixel data types handled by the reader's dispatch switch
(`GDALDataType`); `GDT_Other` stands for any GDAL type outside the seven the
reader knows (its byte count stays 0 and the dispatch falls to the default
branch). -/
inductive GDALDataType where
  | GDT_Byte
  | GDT_UInt16
  | GDT_Int16
  | GDT_UInt32
  | GDT_Int32
  | GDT_Float32
  | GDT_Float64
  | GDT_Other
deriving DecidableEq, Repr

/-- Palette interpretation of a color table (`GDALPaletteInterp`). -/
inductive PaletteInterp where
  | GPI_Gray
  | GPI_RGB
  | GPI_CMYK
  | GPI_HLS
deriving DecidableEq, Repr

/-- One color table entry (`GDALColorEntry`): four short channel values. -/
structure GDALColorEntry where
  c1 : ℤ
  c2 : ℤ
  c3 : ℤ
  c4 : ℤ
deriving DecidableEq, Repr

/-- A band's color table as GDAL exposes it: palette interpretation plus the
ordered entries (`GDALColorTable`). -/
structure GDALColorTableData where
  paletteInterpretation : PaletteInterp
  entries : List GDALColorEntry
deriving DecidableEq, Repr

/-- One ground control point (`GDAL_GCP`): pixel/line position and
georeferenced coordinate. -/
structure GDALGCPData where
  dfGCPPixel : ℚ
  dfGCPLine : ℚ
  dfGCPX : ℚ
  dfGCPY : ℚ
deriving DecidableEq, Repr

/-- One raster band as the reader sees it through GDAL.  `rasterIORead`
models `GDALRasterBand::RasterIO(GF_Read, ...)`: given the requested data
type, source window offset/size and destination size it yields a status and
the destination buffer contents (destWidth*destHeight elements, band-major). -/
structure GDALBand where
  colorInterpretation : ColorInterp
  rasterDataType : GDALDataType
  hasNoData : Bool
  noDataValue : ℚ
  rasterIORead : GDALDataType → ℤ → ℤ → ℤ → ℤ → ℕ → ℕ → CPLErr × List ℚ
  colorTable : Option GDALColorTableData
  categoryNames : Option (List String)

/-- An opened GDAL dataset: everything the reader queries from the library. -/
structure GDALDataset where
  rasterXSize : ℕ
  rasterYSize : ℕ
  bands : List GDALBand
  geoTransform : Option (ℚ × ℚ × ℚ × ℚ × ℚ × ℚ)
  gcpProjection : Option String
  gcps : Option (List GDALGCPData)
  proj4String : String

/-- File-local helper `Min` (vtkGDALRasterReader.cxx lines 56-59), applied by
`RequestInformation` to int-valued quantities. -/
def Min (val1 val2 : ℤ) : ℤ :=
  if val1 < val2 then val1 else val2

/-- File-local helper `Max` (lines 61-64). -/
def Max (val1 val2 : ℤ) : ℤ :=
  if val1 > val2 then val1 else val2

/-- Result of the windowed-read geometry computation done by
`vtkGDALRasterReader::RequestInformation` (lines 1005-1064). -/
structure SourceWindow where
  sourceOffsetX : ℤ
  sourceOffsetY : ℤ
  sourceDimX : ℤ
  sourceDimY : ℤ
  dataExtent : ℤ × ℤ × ℤ × ℤ
  targetDimX : ℤ
  targetDimY : ℤ
deriving DecidableEq, Repr

/-- Windowed-read geometry from `vtkGDALRasterReader::RequestInformation`
(lines 998-1064): default the target size and extent, derive the GDAL-style
source offset and size from the requested extent, clamp them to the raster
bounds, and write the clamped extent back. -/
def RequestInformationWindow (rasterW rasterH : ℕ) (targetDims : ℤ × ℤ)
    (dataExtent : ℤ × ℤ × ℤ × ℤ) : SourceWindow :=
  let W : ℤ := (rasterW : ℤ)
  let H : ℤ := (rasterH : ℤ)
  let targetW := if targetDims.1 = -1 ∧ targetDims.2 = -1 then W else targetDims.1
  let targetH := if targetDims.1 = -1 ∧ targetDims.2 = -1 then H else targetDims.2
  let e0 := if dataExtent.1 = -1 then 0 else dataExtent.1
  let e1 := if dataExtent.1 = -1 then W - 1 else dataExtent.2.1
  let e2 := if dataExtent.1 = -1 then 0 else dataExtent.2.2.1
  let e3 := if dataExtent.1 = -1 then H - 1 else dataExtent.2.2.2
  -- GDAL top left is at 0,0
  let off0 := e0
  let off1 := H - (e3 + 1)
  let dim0 := e1 - e0 + 1
  let dim1 := e3 - e2 + 1
  -- Clamp pixel offset and image dimension
  let off0 := Max 0 (Min W off0)
  let off1 := Max 0 (Min H off1)
  let dim0 := Max 0 dim0
  let dim0 := if dim0 + off0 > W then W - off0 else dim0
  let dim1 := Max 0 dim1
  let dim1 := if dim1 + off1 > H then H - off1 else dim1
  let e0 := off0
  let e1 := e0 + dim0 - 1
  let e3 := H - off1 - 1
  let e2 := e3 - dim1 + 1
  { sourceOffsetX := off0, sourceOffsetY := off1,
    sourceDimX := dim0, sourceDimY := dim1,
    dataExtent := (e0, e1, e2, e3),
    targetDimX := targetW, targetDimY := targetH }

/-- Access to a `std::vector<T>` through `operator[]` with an int index:
defined exactly when the index is within bounds, undefined behaviour (`none`)
otherwise. -/
def stdVectorGet (v : List ℚ) (i : ℤ) : Option ℚ :=
  if h : 0 ≤ i ∧ i < (v.length : ℤ) then some (v.get ⟨i.toNat, by omega⟩) else none

/-- Model of `vtkGDALRasterReader::GetInvalidValue` (lines 1107-1110): an
unchecked read of `NoDataValue[bandIndex - 1]`. -/
def GetInvalidValue (noDataValue : List ℚ) (bandIndex : ℤ) : Option ℚ :=
  stdVectorGet noDataValue (bandIndex - 1)

/-- Resize of a `std::vector` to `n` elements, new slots filled with `x`. -/
def listResize {α : Type} (l : List α) (n : ℕ) (x : α) : List α :=
  l.take n ++ List.replicate (n - l.length) x

/-- Per-band vectors established by `ReadMetaData` on a successful open
(lines 174-176): `NoDataValue.resize(GetRasterCount(), 0)`. -/
def ReadMetaDataNoDataValue (prev : List ℚ) (d : GDALDataset) : List ℚ :=
  listResize prev d.bands.length 0

/-- Model of `vtkGDALRasterReaderInternal::GetGeoCornerPoint` (lines 608-675)
for a non-null dataset and output pointer: returns the `retVal` flag and the
two coordinates written into `out`.  When GCP information is present the code
scans `gcps[0..3]` and the last matching corner wins; `dfGeoX`/`dfGeoY` start
at 0. -/
def GetGeoCornerPoint (d : GDALDataset) (x y : ℚ) : Bool × ℚ × ℚ :=
  if d.gcpProjection = none ∨ d.gcps = none then
    match d.geoTransform with
    | some (a0, a1, a2, a3, a4, a5) =>
        (true, a0 + a1 * x + a2 * y, a3 + a4 * x + a5 * y)
    | none => (false, x, y)
  else
    let gcpList := d.gcps.getD []
    let leftCorner := decide (x = 0)
    let upperCorner := decide (y = 0)
    let geo := (List.range 4).foldl (fun (acc : ℚ × ℚ) i =>
      let gcp := gcpList.getD i ⟨0, 0, 0, 0⟩
      let gcpLeftCorner := decide (gcp.dfGCPPixel = 1/2)
      let gcpUpperCorner := decide (gcp.dfGCPLine = 1/2)
      if gcpLeftCorner = leftCorner ∧ gcpUpperCorner = upperCorner then
        (gcp.dfGCPX, gcp.dfGCPY)
      else acc) (0, 0)
    (false, geo.1, geo.2)

/-- Model of `vtkGDALRasterReaderInternal::GetGeoCornerPoints` (lines
678-696): the `CornerPoints[8]` array holding the geo coordinates of pixel
corners (0,0), (0,H), (W,H), (W,0) in that order. -/
def GetGeoCornerPoints (d : GDALDataset) : List ℚ :=
  let W : ℚ := (d.rasterXSize : ℚ)
  let H : ℚ := (d.rasterYSize : ℚ)
  let c0 := GetGeoCornerPoint d 0 0
  let c1 := GetGeoCornerPoint d 0 H
  let c2 := GetGeoCornerPoint d W H
  let c3 := GetGeoCornerPoint d W 0
  [c0.2.1, c0.2.2, c1.2.1, c1.2.2, c2.2.1, c2.2.2, c3.2.1, c3.2.2]

/-- Geospatial X spacing `geoSpacing[0] = (d[4]-d[0])/RasterDimensions[0]`
computed by `GenericReadData` (lines 500-504). -/
def geoSpacingX (d : GDALDataset) : ℚ :=
  ((GetGeoCornerPoints d).getD 4 0 - (GetGeoCornerPoints d).getD 0 0) / (d.rasterXSize : ℚ)

/-- Geospatial Y spacing `geoSpacing[1] = (d[5]-d[1])/RasterDimensions[1]`
(lines 500-504). -/
def geoSpacingY (d : GDALDataset) : ℚ :=
  ((GetGeoCornerPoints d).getD 5 0 - (GetGeoCornerPoints d).getD 1 0) / (d.rasterYSize : ℚ)

/-- State of a `vtkLookupTable` as far as `ReadColorTable` mutates it:
indexed-lookup flag, normalized table values, and the (index, string)
annotation pairs that were set. -/
structure LookupTableModel where
  indexedLookup : Bool
  tableValues : List (ℚ × ℚ × ℚ × ℚ)
  annot : List (ℕ × String)
deriving DecidableEq, Repr

/-- Freshly constructed `vtkLookupTable` before `ReadColorTable` runs. -/
def newLookupTable : LookupTableModel :=
  { indexedLookup := false, tableValues := [], annot := [] }

/-- Annotation attached to entry `i` of a lookup table, if any was set. -/
def annotAt (t : LookupTableModel) (i : ℕ) : Option String :=
  (t.annot.find? (fun p => p.1 == i)).map (fun p => p.2)

/-- Annotation rule of the `ReadColorTable` loop body (lines 725-741) for
entry `i`: the category name when the band has a category-name list and the
name at `i` is non-empty (`strlen > 0`), no annotation when the list exists
but the name is empty, and the synthesized default string when the band has
no category-name list.  Indexing past the end of the name list (out of range
in C++) is modelled as the empty string. -/
def categoryAnnot (categoryNames : Option (List String)) (i : ℕ) :
    Option (ℕ × String) :=
  match categoryNames with
  | some names =>
      if (names.getD i ("")).length > 0 then some (i, names.getD i ("")) else none
  | none => some (i, "Category " ++ toString i)

/-- Model of `vtkGDALRasterReaderInternal::ReadColorTable` (lines 699-743):
non-RGB palettes leave the table untouched; for RGB palettes every channel
value is divided by 255 and each entry's annotation follows
`categoryAnnot`. -/
def ReadColorTable (gdalTable : GDALColorTableData)
    (categoryNames : Option (List String)) (colorTable : LookupTableModel) :
    LookupTableModel :=
  if gdalTable.paletteInterpretation ≠ PaletteInterp.GPI_RGB then colorTable
  else
    { indexedLookup := true,
      tableValues := gdalTable.entries.map (fun e =>
        ((e.c1 : ℚ) / 255, (e.c2 : ℚ) / 255, (e.c3 : ℚ) / 255, (e.c4 : ℚ) / 255)),
      annot := (List.range gdalTable.entries.length).filterMap
        (categoryAnnot categoryNames) }

/-- Arguments and member state read by `vtkGDALRasterReaderInternal::Convert`
(lines 548-551): the raw buffer, target cell counts, the band group, the
per-band no-data vectors from `this`, and the flip flags. -/
structure ConvertArgs where
  raw : List ℚ
  targetWidth : ℕ
  targetHeight : ℕ
  groupIndex : List ℕ
  HasNoDataValue : List Bool
  NoDataValue : List ℚ
  flipX : Bool
  flipY : Bool
deriving DecidableEq, Repr

/-- Value index `targetIndex = i*n + j*targetWidth*n + bi` written by
`Convert` for output cell `(i,j)` and band slot `bi` (lines 583-584). -/
def targetIndexOf (a : ConvertArgs) (j i bi : ℕ) : ℕ :=
  i * a.groupIndex.length + j * a.targetWidth * a.groupIndex.length + bi

/-- Buffer index `sourceIndex = iIndex + jIndex*targetWidth +
bi*targetWidth*targetHeight` read by `Convert`, with the flipped coordinates
of lines 569 and 572. -/
def sourceIndexOf (a : ConvertArgs) (j i bi : ℕ) : ℕ :=
  (if a.flipX then a.targetWidth - 1 - i else i) +
    (if a.flipY then a.targetHeight - 1 - j else j) * a.targetWidth +
    bi * a.targetWidth * a.targetHeight

/-- The no-data sentinel `TNoDataValue` for band slot `bi` (lines 577-581):
zero unless the band's hasNoData flag is set. -/
def TNoDataValueOf (a : ConvertArgs) (bi : ℕ) : ℚ :=
  let bandIndex := a.groupIndex.getD bi 0
  if a.HasNoDataValue.getD (bandIndex - 1) false then
    a.NoDataValue.getD (bandIndex - 1) 0
  else 0

/-- Condition of line 589: the band's hasNoData flag is set and the fetched
source value equals the band's (cast) no-data value. -/
def noDataMatch (a : ConvertArgs) (j i bi : ℕ) : Bool :=
  let bandIndex := a.groupIndex.getD bi 0
  a.HasNoDataValue.getD (bandIndex - 1) false &&
    decide (a.raw.getD (sourceIndexOf a j i bi) 0 = TNoDataValueOf a bi)

/-- A named cell scalar array (`vtkDataArray` of the VTK_TYPE) as `Convert`
builds it: the sequence of `InsertValue(targetIndex, value)` calls, most
recent first. -/
structure CellArrayModel where
  name : String
  numberOfComponents : ℕ
  writes : List (ℕ × ℚ)
deriving DecidableEq, Repr

/-- Value stored at index `idx` of a cell array: the most recent write. -/
def lookupWrite (ws : List (ℕ × ℚ)) (idx : ℕ) : Option ℚ :=
  (ws.find? (fun p => p.1 == idx)).map (fun p => p.2)

/-- State mutated by one `Convert` pass: the grid's blank calls and live-cell
counter from `this`, the pass-local min/max, and the scalar array being
filled. -/
structure ConvertOut where
  blanked : List ℕ
  count : ℕ
  minv : ℚ
  maxv : ℚ
  scArr : CellArrayModel
deriving DecidableEq, Repr

/-- Body of the triple loop of `Convert` (lines 567-602) for loop indices
`(j, i, bi)`: blank the cell on a no-data match, otherwise track min/max and
count the live cell; always write the raw value. -/
def convertStep (a : ConvertArgs) (st : ConvertOut) (t : ℕ × ℕ × ℕ) : ConvertOut :=
  let j := t.1
  let i := t.2.1
  let bi := t.2.2
  let tIdx := targetIndexOf a j i bi
  let tmp := a.raw.getD (sourceIndexOf a j i bi) 0
  let st1 :=
    if noDataMatch a j i bi then
      { st with blanked := tIdx :: st.blanked }
    else
      { st with
        minv := if tmp < st.minv then tmp else st.minv,
        maxv := if tmp > st.maxv then tmp else st.maxv,
        count := st.count + 1 }
  { st1 with scArr := { st1.scArr with writes := (tIdx, tmp) :: st1.scArr.writes } }

/-- Iteration order of the `Convert` loops: `j` over the target height
(outer), `i` over the target width, `bi` over the band slots (inner). -/
def convertTriples (targetHeight targetWidth slots : ℕ) : List (ℕ × ℕ × ℕ) :=
  (List.range targetHeight).flatMap (fun j =>
    (List.range targetWidth).flatMap (fun i =>
      (List.range slots).map (fun bi => (j, i, bi))))

/-- Model of `vtkGDALRasterReaderInternal::Convert` (lines 548-605).  The
incoming `blanked`/`count` are the accumulated `BlankCell` calls and
`NumberOfCells` of `this`; the pass returns them updated together with the
scalar array it adds to the grid's cell data.  Line 560 initializes min/max
from `rawUniformGridData[0]`, an out-of-range access (`none`) when the raw
buffer is empty. -/
def Convert (a : ConvertArgs) (name : String) (blanked : List ℕ) (count : ℕ) :
    Option ConvertOut :=
  match a.raw[0]? with
  | none => none
  | some v0 =>
      some ((convertTriples a.targetHeight a.targetWidth a.groupIndex.length).foldl
        (convertStep a)
        { blanked := blanked, count := count, minv := v0, maxv := v0,
          scArr := { name := name, numberOfComponents := a.groupIndex.length,
                     writes := [] } })

/-- Band-classification state built by the loop of `GenericReadData` (lines
294-355): first-seen indices for each canonical role (0 = unset), the
`otherBands`/`otherIndex` vector (modelled by its index column; a null
`otherBands[i]` corresponds to `otherIndex[i] = 0`, the two are nulled
together), and the per-band no-data vectors assigned in the same loop. -/
structure ClassifyState where
  redIndex : ℕ
  greenIndex : ℕ
  blueIndex : ℕ
  alphaIndex : ℕ
  grayIndex : ℕ
  paletteIndex : ℕ
  otherIndex : List ℕ
  HasNoDataValue : List Bool
  NoDataValue : List ℚ
deriving DecidableEq, Repr

/-- One iteration of the classification loop for the 1-based band index and
band `p` (lines 310-355). -/
def classifyStep (s : ClassifyState) (p : ℕ × GDALBand) : ClassifyState :=
  let i := p.1
  let b := p.2
  let s := { s with
    HasNoDataValue := s.HasNoDataValue ++ [b.hasNoData],
    NoDataValue := s.NoDataValue ++ [b.noDataValue],
    otherIndex := s.otherIndex ++ [i] }
  if (b.colorInterpretation = ColorInterp.GCI_RedBand ∨
      b.colorInterpretation = ColorInterp.GCI_YCbCr_YBand) ∧ s.redIndex = 0 then
    { s with redIndex := i }
  else if (b.colorInterpretation = ColorInterp.GCI_GreenBand ∨
      b.colorInterpretation = ColorInterp.GCI_YCbCr_CbBand) ∧ s.greenIndex = 0 then
    { s with greenIndex := i }
  else if (b.colorInterpretation = ColorInterp.GCI_BlueBand ∨
      b.colorInterpretation = ColorInterp.GCI_YCbCr_CrBand) ∧ s.blueIndex = 0 then
    { s with blueIndex := i }
  else if b.colorInterpretation = ColorInterp.GCI_AlphaBand ∧ s.alphaIndex = 0 then
    { s with alphaIndex := i }
  else if b.colorInterpretation = ColorInterp.GCI_GrayIndex ∧ s.grayIndex = 0 then
    { s with grayIndex := i }
  else if b.colorInterpretation = ColorInterp.GCI_PaletteIndex ∧ s.paletteIndex = 0 then
    { s with paletteIndex := i }
  else s

/-- The classification loop over all bands, 1-based. -/
def classifyBands (bands : List GDALBand) : ClassifyState :=
  (List.enumFrom 1 bands).foldl classifyStep
    { redIndex := 0, greenIndex := 0, blueIndex := 0, alphaIndex := 0,
      grayIndex := 0, paletteIndex := 0, otherIndex := [],
      HasNoDataValue := [], NoDataValue := [] }

/-- Geometry a Produce pass works with: the reader's `TargetDimensions` and
the `SourceOffset`/`SourceDimensions` computed by `RequestInformation`. -/
structure GeometryModel where
  targetWidth : ℕ
  targetHeight : ℕ
  sourceOffsetX : ℤ
  sourceOffsetY : ℤ
  sourceDimX : ℤ
  sourceDimY : ℤ
deriving DecidableEq, Repr

/-- One windowed band read (`RasterIO(GF_Read, windowX, windowY, windowWidth,
windowHeight, buffer, destWidth, destHeight, TargetDataType, ...)`) of the
1-based band `k`. -/
def readBand (d : GDALDataset) (g : GeometryModel) (tdt : GDALDataType) (k : ℕ) :
    CPLErr × List ℚ :=
  match d.bands[k - 1]? with
  | some b => b.rasterIORead tdt g.sourceOffsetX g.sourceOffsetY g.sourceDimX
      g.sourceDimY g.targetWidth g.targetHeight
  | none => (CPLErr.CE_Failure, [])

/-- State of the produced `vtkUniformGrid`: extent/spacing/origin, the cell
indices passed to `BlankCell` (most recent first), the cell-data arrays in
`AddArray` order, the active scalars name, and the lookup table attached to
the scalars. -/
structure UniformGridModel where
  extent : ℤ × ℤ × ℤ × ℤ × ℤ × ℤ
  spacing : ℚ × ℚ × ℚ
  origin : ℚ × ℚ × ℚ
  blanked : List ℕ
  cellArrays : List CellArrayModel
  activeScalars : Option String
  lookupTable : Option LookupTableModel
deriving DecidableEq, Repr

/-- Everything `GenericReadData` leaves behind: the scalar-component count it
set on the reader (none when no primary group was formed), the statuses of
every `RasterIO` call in order, the populated grid, the accumulated
`NumberOfCells`, and the per-band no-data vectors. -/
structure GenericReadOut where
  scalarComponents : Option ℕ
  statuses : List CPLErr
  grid : UniformGridModel
  count : ℕ
  HasNoDataValue : List Bool
  NoDataValue : List ℚ
deriving DecidableEq, Repr

/-- The residual-band loop of `GenericReadData` (lines 515-531): skip nulled
entries, re-read band `k` into slot 0 of the (resized) buffer, and run
`Convert` for the array named after the band. -/
def otherBandsLoop (d : GDALDataset) (g : GeometryModel) (tdt : GDALDataType)
    (hn : List Bool) (nv : List ℚ) (fx fy : Bool) :
    List ℕ → List ℚ → List ℕ → UniformGridModel → ℕ → List CPLErr →
      Option (UniformGridModel × ℕ × List CPLErr)
  | [], _raw, _gi, grid, count, statuses => some (grid, count, statuses)
  | k :: rest, raw, gi, grid, count, statuses =>
    if k = 0 then otherBandsLoop d g tdt hn nv fx fy rest raw gi grid count statuses
    else
      let r := readBand d g tdt k
      let raw2 := r.2 ++ raw.drop (g.targetWidth * g.targetHeight)
      let gi2 := gi.set 0 k
      let a2 : ConvertArgs :=
        { raw := raw2,
          targetWidth := g.targetWidth,
          targetHeight := g.targetHeight,
          groupIndex := gi2,
          HasNoDataValue := hn,
          NoDataValue := nv,
          flipX := fx,
          flipY := fy }
      match Convert a2 ("band_" ++ toString k) grid.blanked count with
      | none => none
      | some o =>
          otherBandsLoop d g tdt hn nv fx fy rest raw2 gi2
            { grid with
              blanked := o.blanked,
              cellArrays := grid.cellArrays ++ [o.scArr] }
            o.count (statuses ++ [r.1])

/-- Primary role group formed by lines 371-496: component count, group band
indices, residual indices after nulling, read statuses, the filled raw
buffer, and the color table when the group is palette-driven. -/
structure PrimaryGroup where
  scalarComponents : Option ℕ
  groupIndex : List ℕ
  otherIndex : List ℕ
  statuses : List CPLErr
  raw : List ℚ
  colorTable : LookupTableModel
  isPalette : Bool

/-- Model of `vtkGDALRasterReaderInternal::GenericReadData` (lines 283-539).
The raw buffer is a `std::vector` of raw elements resized to
`slots*destWidth*destHeight*NumberOfBytesPerPixel` elements of which the
band reads fill the first `slots*destWidth*destHeight`; the remainder stays
value-initialized to 0 and is never read back.  `none` models the
out-of-range accesses the C++ code can perform: `rawUniformGridData[0]` on an
empty buffer (line 560) and the null-pointer dereference of a missing
palette color table (line 703). -/
def GenericReadData (d : GDALDataset) (g : GeometryModel) (tdt : GDALDataType)
    (pixelSpace : ℕ) : Option GenericReadOut :=
  let cls := classifyBands d.bands
  let destWidth := g.targetWidth
  let destHeight := g.targetHeight
  let nullOut : List ℕ → ℕ → List ℕ := fun o k => o.set (k - 1) 0
  let zeroPad : ℕ → List ℚ := fun slots =>
    List.replicate (slots * destWidth * destHeight * (pixelSpace - 1)) 0
  let primary : Option PrimaryGroup :=
    if cls.redIndex ≠ 0 ∧ cls.greenIndex ≠ 0 ∧ cls.blueIndex ≠ 0 then
      let o1 := nullOut (nullOut (nullOut cls.otherIndex cls.redIndex)
        cls.greenIndex) cls.blueIndex
      if cls.alphaIndex ≠ 0 then
        let rr := readBand d g tdt cls.redIndex
        let rg := readBand d g tdt cls.greenIndex
        let rb := readBand d g tdt cls.blueIndex
        let ra := readBand d g tdt cls.alphaIndex
        some { scalarComponents := some 4,
               groupIndex := [cls.redIndex, cls.greenIndex, cls.blueIndex,
                 cls.alphaIndex],
               otherIndex := nullOut o1 cls.alphaIndex,
               statuses := [rr.1, rg.1, rb.1, ra.1],
               raw := rr.2 ++ rg.2 ++ rb.2 ++ ra.2 ++ zeroPad 4,
               colorTable := newLookupTable, isPalette := false }
      else
        let rr := readBand d g tdt cls.redIndex
        let rg := readBand d g tdt cls.greenIndex
        let rb := readBand d g tdt cls.blueIndex
        some { scalarComponents := some 3,
               groupIndex := [cls.redIndex, cls.greenIndex, cls.blueIndex],
               otherIndex := o1,
               statuses := [rr.1, rg.1, rb.1],
               raw := rr.2 ++ rg.2 ++ rb.2 ++ zeroPad 3,
               colorTable := newLookupTable, isPalette := false }
    else if cls.grayIndex ≠ 0 then
      let o1 := nullOut cls.otherIndex cls.grayIndex
      if cls.alphaIndex ≠ 0 then
        let rg := readBand d g tdt cls.grayIndex
        let ra := readBand d g tdt cls.alphaIndex
        some { scalarComponents := some 2,
               groupIndex := [cls.grayIndex, cls.alphaIndex],
               otherIndex := nullOut o1 cls.alphaIndex,
               statuses := [rg.1, ra.1],
               raw := rg.2 ++ ra.2 ++ zeroPad 2,
               colorTable := newLookupTable, isPalette := false }
      else
        let rg := readBand d g tdt cls.grayIndex
        some { scalarComponents := some 1,
               groupIndex := [cls.grayIndex],
               otherIndex := o1,
               statuses := [rg.1],
               raw := rg.2 ++ zeroPad 1,
               colorTable := newLookupTable, isPalette := false }
    else if cls.paletteIndex ≠ 0 then
      match d.bands[cls.paletteIndex - 1]? with
      | none => none
      | some pb =>
          match pb.colorTable with
          | none => none
          | some ct =>
              let rp := readBand d g tdt cls.paletteIndex
              some { scalarComponents := some 1,
                     groupIndex := [cls.paletteIndex],
                     otherIndex := nullOut cls.otherIndex cls.paletteIndex,
                     statuses := [rp.1],
                     raw := rp.2 ++ zeroPad 1,
                     colorTable := ReadColorTable ct pb.categoryNames newLookupTable,
                     isPalette := true }
    else
      some { scalarComponents := none, groupIndex := [],
             otherIndex := cls.otherIndex, statuses := [], raw := [],
             colorTable := newLookupTable, isPalette := false }
  match primary with
  | none => none
  | some pg =>
      let cp := GetGeoCornerPoints d
      let gs0 := geoSpacingX d
      let gs1 := geoSpacingY d
      let grid0 : UniformGridModel :=
        { extent := (0, (destWidth : ℤ), 0, (destHeight : ℤ), 0, 0),
          spacing := (|gs0|, |gs1|, 1),
          origin := (min (cp.getD 0 0) (cp.getD 4 0),
                     min (cp.getD 1 0) (cp.getD 5 0), 0),
          blanked := [], cellArrays := [], activeScalars := none,
          lookupTable := none }
      let a1 : ConvertArgs :=
        { raw := pg.raw, targetWidth := destWidth, targetHeight := destHeight,
          groupIndex := pg.groupIndex, HasNoDataValue := cls.HasNoDataValue,
          NoDataValue := cls.NoDataValue,
          flipX := decide (gs0 < 0), flipY := decide (gs1 < 0) }
      match Convert a1 ("Elevation") [] 0 with
      | none => none
      | some o1 =>
          let grid1 :=
            { grid0 with
              blanked := o1.blanked,
              cellArrays := [o1.scArr],
              activeScalars := some ("Elevation") }
          let gi1 := listResize pg.groupIndex 1 0
          let raw1 := listResize pg.raw (destWidth * destHeight * pixelSpace) 0
          match otherBandsLoop d g tdt cls.HasNoDataValue cls.NoDataValue
              (decide (gs0 < 0)) (decide (gs1 < 0)) pg.otherIndex raw1 gi1
              grid1 o1.count [] with
          | none => none
          | some (grid2, count2, statuses2) =>
              let grid3 :=
                if pg.isPalette then
                  { grid2 with
                    cellArrays := grid2.cellArrays.map (fun arr =>
                      if arr.name = "Elevation" then { arr with name := "Categories" }
                      else arr),
                    lookupTable := some pg.colorTable }
                else grid2
              some { scalarComponents := pg.scalarComponents,
                     statuses := pg.statuses ++ statuses2,
                     grid := grid3, count := count2,
                     HasNoDataValue := cls.HasNoDataValue,
                     NoDataValue := cls.NoDataValue }

/-- Bytes per pixel assigned by the switch at lines 217-228. -/
def bytesPerPixel : GDALDataType → ℕ
  | GDALDataType.GDT_Byte => 1
  | GDALDataType.GDT_UInt16 => 2
  | GDALDataType.GDT_Int16 => 2
  | GDALDataType.GDT_UInt32 => 4
  | GDALDataType.GDT_Int32 => 4
  | GDALDataType.GDT_Float32 => 4
  | GDALDataType.GDT_Float64 => 8
  | GDALDataType.GDT_Other => 0

/-- Mutable reader state a Produce pass touches: the cached pixel-type
information, the live-cell counter, the produced grid, and the per-band
no-data vectors. -/
structure ReaderState where
  NumberOfBytesPerPixel : ℕ
  TargetDataType : GDALDataType
  NumberOfCells : ℕ
  UniformGridData : Option UniformGridModel
  HasNoDataValue : List Bool
  NoDataValue : List ℚ
deriving DecidableEq, Repr

/-- Model of `vtkGDALRasterReader::GetNumberOfCells` (lines 879-882). -/
def GetNumberOfCells (s : ReaderState) : ℕ :=
  s.NumberOfCells

/-- Shared tail of `ReadData` (lines 230-280): reset the grid and the cell
counter, then dispatch `GenericReadData` for the chosen pixel type. -/
def ReadDataCore (d : GDALDataset) (g : GeometryModel) (tdt : GDALDataType)
    (bytes : ℕ) : Option ReaderState :=
  match GenericReadData d g tdt bytes with
  | none => none
  | some out =>
      some { NumberOfBytesPerPixel := bytes, TargetDataType := tdt,
             NumberOfCells := out.count, UniformGridData := some out.grid,
             HasNoDataValue := out.HasNoDataValue,
             NoDataValue := out.NoDataValue }

/-- Model of `vtkGDALRasterReaderInternal::ReadData` (lines 200-280) for an
open dataset: on the first call (`NumberOfBytesPerPixel == 0`) the pixel type
is taken from band 1 — a null-pointer dereference (`none`) when the dataset
has no bands; afterwards the cached type is reused. -/
def ReadData (d : GDALDataset) (g : GeometryModel) (s : ReaderState) :
    Option ReaderState :=
  if s.NumberOfBytesPerPixel = 0 then
    match d.bands.head? with
    | none => none
    | some rasterBand =>
        let tdt := rasterBand.rasterDataType
        ReadDataCore d g tdt (bytesPerPixel tdt)
  else ReadDataCore d g s.TargetDataType s.NumberOfBytesPerPixel

/-- The grid a `RequestData` call commits to the pipeline (lines 889-963):
the uniform grid plus the `MAP_PROJECTION` string and the per-band
`NO_DATA_VALUE` field array (`none` models the NaN sentinel for a band
without a declared no-data value). -/
structure FinalOutput where
  grid : UniformGridModel
  mapProjection : String
  noDataFieldValues : List (Option ℚ)
deriving DecidableEq, Repr

/-- Model of `vtkGDALRasterReader::RequestData` (lines 889-963) for an open
dataset: run `ReadData`, attach the field data, and commit the grid
(`ShallowCopy`) to the pipeline, returning success. -/
def RequestData (d : GDALDataset) (g : GeometryModel) (s : ReaderState) :
    Option (ReaderState × FinalOutput) :=
  match ReadData d g s with
  | none => none
  | some t =>
      match t.UniformGridData with
      | none => none
      | some grid =>
          some (t, { grid := grid, mapProjection := d.proj4String,
                     noDataFieldValues := d.bands.map (fun b =>
                       if b.hasNoData then some b.noDataValue else none) })

/-- Windowed read that always returns the given status and buffer,
independent of the window (a constant-valued band). -/
def constRead (st : CPLErr) (data : List ℚ) :
    GDALDataType → ℤ → ℤ → ℤ → ℤ → ℕ → ℕ → CPLErr × List ℚ :=
  fun _ _ _ _ _ _ _ => (st, data)

/-- A float64 gray band without no-data whose reads yield `data`. -/
def grayBand (st : CPLErr) (data : List ℚ) : GDALBand :=
  { colorInterpretation := ColorInterp.GCI_GrayIndex,
    rasterDataType := GDALDataType.GDT_Float64,
    hasNoData := false, noDataValue := 0,
    rasterIORead := constRead st data,
    colorTable := none, categoryNames := none }

/-- A 1x1 single-gray-band dataset with value 5 and identity-style
geotransform. -/
def sampleDataset : GDALDataset :=
  { rasterXSize := 1, rasterYSize := 1,
    bands := [grayBand CPLErr.CE_None [5]],
    geoTransform := some (0, 1, 0, 0, 0, 1),
    gcpProjection := none, gcps := none,
    proj4String := "+proj=longlat" }

/-- Full-raster geometry for the 1x1 sample dataset. -/
def sampleGeometry : GeometryModel :=
  { targetWidth := 1, targetHeight := 1, sourceOffsetX := 0,
    sourceOffsetY := 0, sourceDimX := 1, sourceDimY := 1 }

/-- Reader state as constructed (lines 120-143): no cached pixel type, no
grid, empty no-data vectors. -/
def initialReaderState : ReaderState :=
  { NumberOfBytesPerPixel := 0, TargetDataType := GDALDataType.GDT_Byte,
    NumberOfCells := 0, UniformGridData := none,
    HasNoDataValue := [], NoDataValue := [] }

/-- The sample dataset with a band whose windowed read reports failure. -/
def failingDataset : GDALDataset :=
  { sampleDataset with bands := [grayBand CPLErr.CE_Failure [5]] }

/-- The sample dataset with zero bands. -/
def zeroBandDataset : GDALDataset :=
  { sampleDataset with bands := [] }

/-- A 2x1 gray dataset with values [10, 20] whose geotransform makes both
geospatial spacings negative. -/
def flippedDataset : GDALDataset :=
  { rasterXSize := 2, rasterYSize := 1,
    bands := [grayBand CPLErr.CE_None [10, 20]],
    geoTransform := some (0, -1, 0, 0, 0, -1),
    gcpProjection := none, gcps := none, proj4String := "" }

/-- Full-raster geometry for the 2x1 flipped dataset. -/
def flippedGeometry : GeometryModel :=
  { targetWidth := 2, targetHeight := 1, sourceOffsetX := 0,
    sourceOffsetY := 0, sourceDimX := 2, sourceDimY := 1 }

/-- Convert arguments for one cell and a two-slot band group where only band
2 declares no-data (= 7) and the cell's band-2 source value is 7. -/
def c1Args : ConvertArgs :=
  { raw := [5, 7], targetWidth := 1, targetHeight := 1, groupIndex := [1, 2],
    HasNoDataValue := [false, true], NoDataValue := [0, 7],
    flipX := false, flipY := false }

/-- Convert arguments for one cell and a two-slot band group with no
no-data declared on either band. -/
def c2Args : ConvertArgs :=
  { raw := [5, 6], targetWidth := 1, targetHeight := 1, groupIndex := [1, 2],
    HasNoDataValue := [false, false], NoDataValue := [0, 0],
    flipX := false, flipY := false }

/-- An RGB color table with two entries. -/
def twoEntryTable : GDALColorTableData :=
  { paletteInterpretation := PaletteInterp.GPI_RGB,
    entries := [{ c1 := 10, c2 := 20, c3 := 30, c4 := 40 },
                { c1 := 1, c2 := 2, c3 := 3, c4 := 4 }] }

/-- A 3x2 bandless dataset with the geotransform (100, 1, 0, 200, 0, -1). -/
def affineDataset : GDALDataset :=
  { rasterXSize := 3, rasterYSize := 2, bands := [],
    geoTransform := some (100, 1, 0, 200, 0, -1),
    gcpProjection := none, gcps := none, proj4String := "" }

/-- Result of the `Convert` pass over `c1Args`. -/
def c1Out : ConvertOut :=
  { blanked := [1], count := 1, minv := 5, maxv := 5,
    scArr := { name := "Elevation", numberOfComponents := 2,
               writes := [(1, 7), (0, 5)] } }

/-- Result of the `Convert` pass over `c2Args`. -/
def c2Out : ConvertOut :=
  { blanked := [], count := 2, minv := 5, maxv := 6,
    scArr := { name := "Elevation", numberOfComponents := 2,
               writes := [(1, 6), (0, 5)] } }

/-- Convert arguments matching the primary pass of `GenericReadData` on
`flippedDataset`: both flip flags are set because both geospatial spacings
are negative. -/
def c3Args : ConvertArgs :=
  { raw := [10, 20], targetWidth := 2, targetHeight := 1, groupIndex := [1],
    HasNoDataValue := [false], NoDataValue := [0],
    flipX := true, flipY := true }

/-- Result of the `Convert` pass over `c3Args`. -/
def c3Out : ConvertOut :=
  { blanked := [], count := 2, minv := 10, maxv := 20,
    scArr := { name := "Elevation", numberOfComponents := 1,
               writes := [(1, 10), (0, 20)] } }

/-- Grid produced by a Produce pass over `sampleDataset`. -/
def witnessGrid : UniformGridModel :=
  { extent := (0, 1, 0, 1, 0, 0), spacing := (1, 1, 1), origin := (0, 0, 0),
    blanked := [],
    cellArrays := [{ name := "Elevation", numberOfComponents := 1,
                     writes := [(0, 5)] }],
    activeScalars := some ("Elevation"), lookupTable := none }

/-- Reader state after a Produce pass over `sampleDataset`. -/
def witnessState : ReaderState :=
  { NumberOfBytesPerPixel := 8, TargetDataType := GDALDataType.GDT_Float64,
    NumberOfCells := 1, UniformGridData := some witnessGrid,
    HasNoDataValue := [false], NoDataValue := [0] }

/-- Committed output of a Produce pass over `sampleDataset`. -/
def witnessOut : FinalOutput :=
  { grid := witnessGrid, mapProjection := "+proj=longlat",
    noDataFieldValues := [none] }

set_option maxHeartbeats 1000000 in
/-- C4: for every requested extent (and any target-size request), the
windowed-read geometry computed by `RequestInformation` satisfies: the source
offset lies in `[0, rasterDim]` on each axis, the source size is
non-negative, and `sourceOffset + sourceSize ≤ rasterDim` on each axis. -/
theorem claim_C4_window_clamped (rasterW rasterH : ℕ) (targetDims : ℤ × ℤ)
    (dataExtent : ℤ × ℤ × ℤ × ℤ) :
    ∀ w : SourceWindow,
      RequestInformationWindow rasterW rasterH targetDims dataExtent = w →
      0 ≤ w.sourceOffsetX ∧ w.sourceOffsetX ≤ (rasterW : ℤ) ∧
      0 ≤ w.sourceDimX ∧ w.sourceOffsetX + w.sourceDimX ≤ (rasterW : ℤ) ∧
      0 ≤ w.sourceOffsetY ∧ w.sourceOffsetY ≤ (rasterH : ℤ) ∧
      0 ≤ w.sourceDimY ∧ w.sourceOffsetY + w.sourceDimY ≤ (rasterH : ℤ) := by
  intro w hw
  obtain ⟨o0, o1, s0, s1, de, t0, t1⟩ := w
  unfold RequestInformationWindow at hw
  simp only [Min, Max, SourceWindow.mk.injEq] at hw
  obtain ⟨h0, h1, h2, h3, h4, h5, h6⟩ := hw
  subst h0 h1 h2 h3
  dsimp only
  split_ifs <;> omega

/-- C4 witness: the clamping invariants evaluated on a 10x7 raster with the
out-of-bounds requested extent (-100, 1000, -5, 99). -/
theorem claim_C4_witness :
    0 ≤ (RequestInformationWindow 10 7 (-1, -1) (-100, 1000, -5, 99)).sourceOffsetX ∧
    (RequestInformationWindow 10 7 (-1, -1) (-100, 1000, -5, 99)).sourceOffsetX ≤ ((10 : ℕ) : ℤ) ∧
    0 ≤ (RequestInformationWindow 10 7 (-1, -1) (-100, 1000, -5, 99)).sourceDimX ∧
    (RequestInformationWindow 10 7 (-1, -1) (-100, 1000, -5, 99)).sourceOffsetX +
      (RequestInformationWindow 10 7 (-1, -1) (-100, 1000, -5, 99)).sourceDimX ≤ ((10 : ℕ) : ℤ) ∧
    0 ≤ (RequestInformationWindow 10 7 (-1, -1) (-100, 1000, -5, 99)).sourceOffsetY ∧
    (RequestInformationWindow 10 7 (-1, -1) (-100, 1000, -5, 99)).sourceOffsetY ≤ ((7 : ℕ) : ℤ) ∧
    0 ≤ (RequestInformationWindow 10 7 (-1, -1) (-100, 1000, -5, 99)).sourceDimY ∧
    (RequestInformationWindow 10 7 (-1, -1) (-100, 1000, -5, 99)).sourceOffsetY +
      (RequestInformationWindow 10 7 (-1, -1) (-100, 1000, -5, 99)).sourceDimY ≤ ((7 : ℕ) : ℤ) :=
  claim_C4_window_clamped 10 7 (-1, -1) (-100, 1000, -5, 99)
    (RequestInformationWindow 10 7 (-1, -1) (-100, 1000, -5, 99)) rfl

/-- C6: without ground-control points (null GCP projection or null GCP
list) and with a geotransform available, the four cached corner points are
computed by the affine formulas `geoX = a0 + a1*px + a2*py`,
`geoY = a3 + a4*px + a5*py` at the pixel corners (0,0), (0,H), (W,H),
(W,0). -/
theorem claim_C6_affine_corners (d : GDALDataset) (a0 a1 a2 a3 a4 a5 : ℚ)
    (hg : d.gcpProjection = none ∨ d.gcps = none)
    (ht : d.geoTransform = some (a0, a1, a2, a3, a4, a5)) :
    GetGeoCornerPoints d =
      [a0 + a1 * 0 + a2 * 0,
       a3 + a4 * 0 + a5 * 0,
       a0 + a1 * 0 + a2 * (d.rasterYSize : ℚ),
       a3 + a4 * 0 + a5 * (d.rasterYSize : ℚ),
       a0 + a1 * (d.rasterXSize : ℚ) + a2 * (d.rasterYSize : ℚ),
       a3 + a4 * (d.rasterXSize : ℚ) + a5 * (d.rasterYSize : ℚ),
       a0 + a1 * (d.rasterXSize : ℚ) + a2 * 0,
       a3 + a4 * (d.rasterXSize : ℚ) + a5 * 0] := by
  rcases hg with hg | hg <;>
    simp [GetGeoCornerPoints, GetGeoCornerPoint, hg, ht]

/-- C6 witness: for the geotransform (100, 1, 0, 200, 0, -1) on a 3x2
raster the corners are (100 + px, 200 - py) for the four pixel corners. -/
theorem claim_C6_witness :
    GetGeoCornerPoints affineDataset = [100, 200, 100, 198, 103, 198, 103, 200] := by
  have h := claim_C6_affine_corners affineDataset 100 1 0 200 0 (-1)
    (Or.inl rfl) rfl
  rw [h]
  norm_num [affineDataset]

/-- C10: `GetInvalidValue(bandIndex)` reads `NoDataValue[bandIndex - 1]`
unchecked; after a successful metadata read the access is in bounds exactly
when `1 ≤ bandIndex ≤ band count`. -/
theorem claim_C10_invalid_value_bounds (prev : List ℚ) (d : GDALDataset)
    (bandIndex : ℤ) :
    (GetInvalidValue (ReadMetaDataNoDataValue prev d) bandIndex).isSome ↔
      1 ≤ bandIndex ∧ bandIndex ≤ (d.bands.length : ℤ) := by
  have hlen : (ReadMetaDataNoDataValue prev d).length = d.bands.length := by
    simp only [ReadMetaDataNoDataValue, listResize, List.length_append,
      List.length_take, List.length_replicate]
    omega
  unfold GetInvalidValue stdVectorGet
  split
  · rename_i h
    rw [hlen] at h
    exact iff_of_true (by simp) (by omega)
  · rename_i h
    rw [hlen] at h
    exact iff_of_false (by simp) (by omega)

/-- C7 (code bug): a failing windowed band read does not abort the Produce
call; its status is only inspected by a disabled assert and the grid is
still committed.  At the failing input the read statuses contain a failure
while `RequestData` still returns success with a committed grid. -/
theorem claim_C7_failing_read_still_commits :
    (GenericReadData failingDataset sampleGeometry GDALDataType.GDT_Float64 8).map
        GenericReadOut.statuses = some [CPLErr.CE_Failure] ∧
      (RequestData failingDataset sampleGeometry initialReaderState).isSome = true := by
  decide

/-- C9 (code bug): a dataset with zero bands makes the Produce phase perform
out-of-range accesses instead of yielding an empty grid: `ReadData`
dereferences the null `GetRasterBand(1)` and `Convert` reads element 0 of
the empty raw buffer. -/
theorem claim_C9_zero_bands_out_of_range :
    ReadData zeroBandDataset sampleGeometry initialReaderState = none ∧
      GenericReadData zeroBandDataset sampleGeometry GDALDataType.GDT_Byte 1 = none ∧
      Convert { raw := [], targetWidth := 1, targetHeight := 1,
                groupIndex := [], HasNoDataValue := [], NoDataValue := [],
                flipX := false, flipY := false } ("Elevation") [] 0 = none := by
  decide

/-- One `Convert` loop body appends exactly one write (the raw source value
at the slot-resolved target index) to the scalar array and leaves its name
and component count unchanged. -/
theorem convertStep_scArr (a : ConvertArgs) (st : ConvertOut) (t : ℕ × ℕ × ℕ) :
    (convertStep a st t).scArr =
      { st.scArr with
        writes := (targetIndexOf a t.1 t.2.1 t.2.2,
          a.raw.getD (sourceIndexOf a t.1 t.2.1 t.2.2) 0) :: st.scArr.writes } := by
  simp only [convertStep]
  split <;> rfl

/-- A matching loop body blanks the slot-resolved target index. -/
theorem convertStep_blanked_pos (a : ConvertArgs) (st : ConvertOut)
    (t : ℕ × ℕ × ℕ) (h : noDataMatch a t.1 t.2.1 t.2.2 = true) :
    (convertStep a st t).blanked =
      targetIndexOf a t.1 t.2.1 t.2.2 :: st.blanked := by
  simp only [convertStep, h]
  rfl

/-- A non-matching loop body does not blank anything. -/
theorem convertStep_blanked_neg (a : ConvertArgs) (st : ConvertOut)
    (t : ℕ × ℕ × ℕ) (h : noDataMatch a t.1 t.2.1 t.2.2 = false) :
    (convertStep a st t).blanked = st.blanked := by
  simp only [convertStep, h]
  rfl

/-- A matching loop body does not increment the live-cell counter. -/
theorem convertStep_count_pos (a : ConvertArgs) (st : ConvertOut)
    (t : ℕ × ℕ × ℕ) (h : noDataMatch a t.1 t.2.1 t.2.2 = true) :
    (convertStep a st t).count = st.count := by
  simp only [convertStep, h]
  rfl

/-- A non-matching loop body increments the live-cell counter once. -/
theorem convertStep_count_neg (a : ConvertArgs) (st : ConvertOut)
    (t : ℕ × ℕ × ℕ) (h : noDataMatch a t.1 t.2.1 t.2.2 = false) :
    (convertStep a st t).count = st.count + 1 := by
  simp only [convertStep, h]
  rfl

/-- Writes accumulated by the `Convert` loop: one entry per loop triple, in
reverse order, on top of the initial array contents. -/
theorem foldl_convertStep_writes (a : ConvertArgs) (L : List (ℕ × ℕ × ℕ))
    (st : ConvertOut) :
    (L.foldl (convertStep a) st).scArr.writes =
      (L.map (fun t => (targetIndexOf a t.1 t.2.1 t.2.2,
        a.raw.getD (sourceIndexOf a t.1 t.2.1 t.2.2) 0))).reverse ++
        st.scArr.writes := by
  induction L generalizing st with
  | nil => simp
  | cons t rest ih =>
      rw [List.foldl_cons, ih, convertStep_scArr]
      simp

/-- Blank calls accumulated by the `Convert` loop: exactly the initial ones
plus the slot-resolved target index of every matching triple. -/
theorem foldl_convertStep_blanked (a : ConvertArgs) (L : List (ℕ × ℕ × ℕ))
    (st : ConvertOut) (x : ℕ) :
    x ∈ (L.foldl (convertStep a) st).blanked ↔
      x ∈ st.blanked ∨ ∃ t ∈ L, noDataMatch a t.1 t.2.1 t.2.2 = true ∧
        x = targetIndexOf a t.1 t.2.1 t.2.2 := by
  induction L generalizing st with
  | nil => simp
  | cons t rest ih =>
      rw [List.foldl_cons, ih]
      cases hm : noDataMatch a t.1 t.2.1 t.2.2 with
      | true =>
          rw [convertStep_blanked_pos a st t hm]
          constructor
          · rintro (hx | ⟨t1, ht1, hm1, hx1⟩)
            · rcases List.mem_cons.mp hx with hx | hx
              · exact Or.inr ⟨t, List.mem_cons_self t rest, hm, hx⟩
              · exact Or.inl hx
            · exact Or.inr ⟨t1, List.mem_cons_of_mem t ht1, hm1, hx1⟩
          · rintro (hx | ⟨t1, ht1, hm1, hx1⟩)
            · exact Or.inl (List.mem_cons_of_mem _ hx)
            · rcases List.mem_cons.mp ht1 with rfl | ht1
              · subst hx1
                exact Or.inl (List.mem_cons_self _ _)
              · exact Or.inr ⟨t1, ht1, hm1, hx1⟩
      | false =>
          rw [convertStep_blanked_neg a st t hm]
          constructor
          · rintro (hx | ⟨t1, ht1, hm1, hx1⟩)
            · exact Or.inl hx
            · exact Or.inr ⟨t1, List.mem_cons_of_mem t ht1, hm1, hx1⟩
          · rintro (hx | ⟨t1, ht1, hm1, hx1⟩)
            · exact Or.inl hx
            · rcases List.mem_cons.mp ht1 with rfl | ht1
              · rw [hm1] at hm
                exact Bool.noConfusion hm
              · exact Or.inr ⟨t1, ht1, hm1, hx1⟩

/-- Count accumulated by the `Convert` loop: the initial count plus one per
non-matching triple. -/
theorem foldl_convertStep_count (a : ConvertArgs) (L : List (ℕ × ℕ × ℕ))
    (st : ConvertOut) :
    (L.foldl (convertStep a) st).count =
      st.count + L.countP (fun t => ! noDataMatch a t.1 t.2.1 t.2.2) := by
  induction L generalizing st with
  | nil => simp
  | cons t rest ih =>
      rw [List.foldl_cons, ih, List.countP_cons]
      cases hm : noDataMatch a t.1 t.2.1 t.2.2 with
      | true => rw [convertStep_count_pos a st t hm]; simp [hm]
      | false => rw [convertStep_count_neg a st t hm]; simp [hm]; omega

/-- Membership in the `Convert` iteration space. -/
theorem mem_convertTriples {targetHeight targetWidth slots : ℕ}
    {t : ℕ × ℕ × ℕ} :
    t ∈ convertTriples targetHeight targetWidth slots ↔
      t.1 < targetHeight ∧ t.2.1 < targetWidth ∧ t.2.2 < slots := by
  obtain ⟨j, i, bi⟩ := t
  simp only [convertTriples, List.mem_flatMap, List.mem_map, List.mem_range]
  constructor
  · rintro ⟨j1, hj1, i1, hi1, bi1, hbi1, heq⟩
    simp only [Prod.mk.injEq] at heq
    obtain ⟨rfl, rfl, rfl⟩ := heq
    exact ⟨hj1, hi1, hbi1⟩
  · rintro ⟨h1, h2, h3⟩
    exact ⟨j, h1, i, h2, bi, h3, rfl⟩

/-- The target-index map of `Convert` is injective on the iteration space:
distinct (cell, slot) triples write distinct array positions. -/
theorem targetIndexOf_inj (a : ConvertArgs) {j i bi j' i' bi' : ℕ}
    (hi : i < a.targetWidth) (hbi : bi < a.groupIndex.length)
    (hi' : i' < a.targetWidth) (hbi' : bi' < a.groupIndex.length)
    (h : targetIndexOf a j i bi = targetIndexOf a j' i' bi') :
    j = j' ∧ i = i' ∧ bi = bi' := by
  unfold targetIndexOf at h
  have hn : 0 < a.groupIndex.length := Nat.lt_of_le_of_lt (Nat.zero_le bi) hbi
  have hW : 0 < a.targetWidth := Nat.lt_of_le_of_lt (Nat.zero_le i) hi
  set n := a.groupIndex.length with hns
  set W := a.targetWidth with hWs
  have modn : ∀ b ii jj : ℕ, b < n → (ii * n + jj * W * n + b) % n = b := by
    intro b ii jj hb
    have e : ii * n + jj * W * n + b = b + ii * n + (jj * W) * n := by ring
    rw [e, Nat.add_mul_mod_self_right, Nat.add_mul_mod_self_right,
      Nat.mod_eq_of_lt hb]
  have hbi2 : bi = bi' := by
    rw [← modn bi i j hbi, ← modn bi' i' j' hbi', h]
  subst hbi2
  have h2 : i + j * W = i' + j' * W := by
    have hc : (i + j * W) * n = (i' + j' * W) * n := by
      have hx := Nat.add_right_cancel h
      calc (i + j * W) * n = i * n + j * W * n := by ring
        _ = i' * n + j' * W * n := hx
        _ = (i' + j' * W) * n := by ring
    exact Nat.eq_of_mul_eq_mul_right hn hc
  have hi2 : i = i' := by
    have m1 : (i + j * W) % W = i := by
      rw [Nat.add_mul_mod_self_right, Nat.mod_eq_of_lt hi]
    have m2 : (i' + j' * W) % W = i' := by
      rw [Nat.add_mul_mod_self_right, Nat.mod_eq_of_lt hi']
    rw [← m1, ← m2, h2]
  subst hi2
  have hj2 : j = j' := by
    have hx := Nat.add_left_cancel h2
    exact Nat.eq_of_mul_eq_mul_right hW hx
  exact ⟨hj2, rfl, rfl⟩

/-- The most recent write at a key is the unique value associated with that
key, when the value is unique. -/
theorem lookupWrite_eq_of_mem_unique (l : List (ℕ × ℚ)) (k : ℕ) (v : ℚ)
    (hm : (k, v) ∈ l) (hu : ∀ p ∈ l, p.1 = k → p.2 = v) :
    lookupWrite l k = some v := by
  induction l with
  | nil => cases hm
  | cons p rest ih =>
      unfold lookupWrite
      by_cases hpk : p.1 = k
      · rw [List.find?_cons_of_pos rest (by simp [hpk])]
        simp [hu p (List.mem_cons_self p rest) hpk]
      · rw [List.find?_cons_of_neg rest (by simp [hpk])]
        have hm' : (k, v) ∈ rest := by
          rcases List.mem_cons.mp hm with he | hr
          · rw [← he] at hpk; simp at hpk
          · exact hr
        exact ih hm' (fun q hq => hu q (List.mem_cons_of_mem p hq))

/-- The scalar array produced by a successful `Convert` pass. -/
theorem Convert_writes (a : ConvertArgs) (name : String) (b0 : List ℕ)
    (c0 : ℕ) (o : ConvertOut) (h : Convert a name b0 c0 = some o) :
    o.scArr.writes =
      ((convertTriples a.targetHeight a.targetWidth a.groupIndex.length).map
        (fun t => (targetIndexOf a t.1 t.2.1 t.2.2,
          a.raw.getD (sourceIndexOf a t.1 t.2.1 t.2.2) 0))).reverse := by
  unfold Convert at h
  cases h0 : a.raw[0]? with
  | none => rw [h0] at h; exact Option.noConfusion h
  | some v0 =>
      rw [h0] at h
      injection h with h
      subst h
      rw [foldl_convertStep_writes]
      simp

/-- Blanked indices of a successful `Convert` pass. -/
theorem Convert_blanked (a : ConvertArgs) (name : String) (b0 : List ℕ)
    (c0 : ℕ) (o : ConvertOut) (h : Convert a name b0 c0 = some o) (x : ℕ) :
    x ∈ o.blanked ↔
      x ∈ b0 ∨ ∃ t ∈ convertTriples a.targetHeight a.targetWidth
        a.groupIndex.length, noDataMatch a t.1 t.2.1 t.2.2 = true ∧
          x = targetIndexOf a t.1 t.2.1 t.2.2 := by
  unfold Convert at h
  cases h0 : a.raw[0]? with
  | none => rw [h0] at h; exact Option.noConfusion h
  | some v0 =>
      rw [h0] at h
      injection h with h
      subst h
      exact foldl_convertStep_blanked a _ _ x

/-- Live-cell count of a successful `Convert` pass. -/
theorem Convert_count (a : ConvertArgs) (name : String) (b0 : List ℕ)
    (c0 : ℕ) (o : ConvertOut) (h : Convert a name b0 c0 = some o) :
    o.count = c0 + (convertTriples a.targetHeight a.targetWidth
      a.groupIndex.length).countP
        (fun t => ! noDataMatch a t.1 t.2.1 t.2.2) := by
  unfold Convert at h
  cases h0 : a.raw[0]? with
  | none => rw [h0] at h; exact Option.noConfusion h
  | some v0 =>
      rw [h0] at h
      injection h with h
      subst h
      exact foldl_convertStep_count a _ _

/-- Value stored by a successful `Convert` pass at the slot-resolved target
index of a valid (cell, slot) triple: the raw source value. -/
theorem Convert_lookupWrite (a : ConvertArgs) (name : String) (b0 : List ℕ)
    (c0 : ℕ) (o : ConvertOut) (h : Convert a name b0 c0 = some o)
    (j i bi : ℕ) (hj : j < a.targetHeight) (hi : i < a.targetWidth)
    (hbi : bi < a.groupIndex.length) :
    lookupWrite o.scArr.writes (targetIndexOf a j i bi) =
      some (a.raw.getD (sourceIndexOf a j i bi) 0) := by
  rw [Convert_writes a name b0 c0 o h]
  apply lookupWrite_eq_of_mem_unique
  · rw [List.mem_reverse]
    exact List.mem_map.mpr ⟨(j, i, bi), mem_convertTriples.mpr ⟨hj, hi, hbi⟩, rfl⟩
  · intro p hp hpk
    rw [List.mem_reverse] at hp
    obtain ⟨⟨tj, ti, tbi⟩, ht, rfl⟩ := List.mem_map.mp hp
    obtain ⟨ht1, ht2, ht3⟩ := mem_convertTriples.mp ht
    obtain ⟨rfl, rfl, rfl⟩ := targetIndexOf_inj a ht2 ht3 hi hbi hpk
    rfl

/-- C1 counterexample: in a two-slot band group over one cell, slot 1's
source value equals band 2's declared no-data value, yet the cell itself
(cell index 0, the only cell of the grid) is not blanked — `BlankCell`
received the flat component index `i*n + j*W*n + bi = 1` instead. -/
theorem claim_C1_counterexample :
    ¬ ∀ o : ConvertOut, Convert c1Args ("Elevation") [] 0 = some o →
        ∀ i j : ℕ, i < c1Args.targetWidth → j < c1Args.targetHeight →
          (∃ bi, bi < c1Args.groupIndex.length ∧
            noDataMatch c1Args j i bi = true) →
          (i + j * c1Args.targetWidth) ∈ o.blanked := by
  intro hcl
  have h := hcl c1Out (by decide) 0 0 (by decide) (by decide)
    ⟨1, by decide, by decide⟩
  revert h
  decide

/-- C1 (amended): in a `Convert` pass, when slot `bi` of output cell `(i,j)`
fetches a source value equal to that band's declared no-data value (checked
only when the band's hasNoData flag is set), the index passed to `BlankCell`
is the flat component index `i*n + j*targetWidth*n + bi` of that slot — it
coincides with the cell index only for single-slot groups — and those are
the only blanked indices of the pass; the raw value is always written into
the output scalar array at that same flat index regardless of blank
status. -/
theorem claim_C1_amended (a : ConvertArgs) (name : String) (o : ConvertOut)
    (h : Convert a name [] 0 = some o) (j i bi : ℕ)
    (hj : j < a.targetHeight) (hi : i < a.targetWidth)
    (hbi : bi < a.groupIndex.length) :
    (targetIndexOf a j i bi ∈ o.blanked ↔ noDataMatch a j i bi = true) ∧
      lookupWrite o.scArr.writes (targetIndexOf a j i bi) =
        some (a.raw.getD (sourceIndexOf a j i bi) 0) := by
  constructor
  · rw [Convert_blanked a name [] 0 o h]
    simp only [List.not_mem_nil, false_or]
    constructor
    · rintro ⟨⟨tj, ti, tbi⟩, ht, hmt, heq⟩
      obtain ⟨ht1, ht2, ht3⟩ := mem_convertTriples.mp ht
      obtain ⟨rfl, rfl, rfl⟩ := targetIndexOf_inj a hi hbi ht2 ht3 heq
      exact hmt
    · intro hm
      exact ⟨(j, i, bi), mem_convertTriples.mpr ⟨hj, hi, hbi⟩, hm, rfl⟩
  · exact Convert_lookupWrite a name [] 0 o h j i bi hj hi hbi

/-- C1 witness: the amended statement evaluated on the two-slot pass of the
counterexample, at cell (0,0) and slot 1. -/
theorem claim_C1_witness :
    ((targetIndexOf c1Args 0 0 1 ∈ c1Out.blanked) ↔
        noDataMatch c1Args 0 0 1 = true) ∧
      lookupWrite c1Out.scArr.writes (targetIndexOf c1Args 0 0 1) =
        some (c1Args.raw.getD (sourceIndexOf c1Args 0 0 1) 0) :=
  claim_C1_amended c1Args ("Elevation") c1Out (by decide) 0 0 1
    (by decide) (by decide) (by decide)

/-- C2 counterexample: a single-cell pass over a two-slot band group with no
no-data declared anywhere counts the cell twice, not exactly once as the
claim states. -/
theorem claim_C2_counterexample :
    (Convert c2Args ("Elevation") [] 0).map ConvertOut.count = some 2 ∧
      (Convert c2Args ("Elevation") [] 0).map ConvertOut.count ≠ some 1 := by
  decide

/-- C2 (amended): a `Convert` pass adds to `NumberOfCells` exactly one unit
per (cell, slot) pair whose fetched source value does not match that band's
no-data value — so a fully live cell is counted once per slot of the band
group (exactly once only for single-slot groups), and matching (cell, slot)
pairs are excluded from the count. -/
theorem claim_C2_amended (a : ConvertArgs) (name : String) (b0 : List ℕ)
    (c0 : ℕ) (o : ConvertOut) (h : Convert a name b0 c0 = some o) :
    o.count = c0 + (convertTriples a.targetHeight a.targetWidth
      a.groupIndex.length).countP
        (fun t => ! noDataMatch a t.1 t.2.1 t.2.2) :=
  Convert_count a name b0 c0 o h

/-- C2 witness: the amended count formula evaluated on the two-slot
single-cell pass (the count is 2). -/
theorem claim_C2_witness :
    c2Out.count = 0 + (convertTriples c2Args.targetHeight c2Args.targetWidth
      c2Args.groupIndex.length).countP
        (fun t => ! noDataMatch c2Args t.1 t.2.1 t.2.2) :=
  claim_C2_amended c2Args ("Elevation") [] 0 c2Out (by decide)

/-- C3 counterexample: on a 2x1 raster whose geospatial spacings are both
negative (they share sign), the produced cell order is still flipped: cell 0
of the "Elevation" array holds the raw buffer's element 1 (value 20), not
its element 0 (value 10) — refuting "if both spacings share sign, no flip
occurs". -/
theorem claim_C3_counterexample :
    geoSpacingX flippedDataset < 0 ∧ geoSpacingY flippedDataset < 0 ∧
      (GenericReadData flippedDataset flippedGeometry
          GDALDataType.GDT_Float64 8).map
        (fun out => out.grid.cellArrays.map
          (fun arr => (arr.name, lookupWrite arr.writes 0))) =
        some [("Elevation", some 20)] ∧
      (readBand flippedDataset flippedGeometry GDALDataType.GDT_Float64
          1).2.getD 0 0 = 10 ∧
      (10 : ℚ) ≠ 20 := by
  with_unfolding_all decide

/-- C3 (amended): for a `Convert` pass whose flip flags are derived from the
geospatial spacing signs (as `GenericReadData` derives them, lines 500-511),
the value stored for output cell `(i,j)` and slot `bi` comes from source
column `targetWidth-1-i` exactly when the X spacing is negative (else from
column `i`), and from source row `targetHeight-1-j` exactly when the Y
spacing is negative (else from row `j`): a negative spacing reverses that
axis, a non-negative one leaves it alone. -/
theorem claim_C3_amended (ds : GDALDataset) (a : ConvertArgs) (name : String)
    (b0 : List ℕ) (c0 : ℕ) (o : ConvertOut)
    (hfx : a.flipX = decide (geoSpacingX ds < 0))
    (hfy : a.flipY = decide (geoSpacingY ds < 0))
    (h : Convert a name b0 c0 = some o) (j i bi : ℕ)
    (hj : j < a.targetHeight) (hi : i < a.targetWidth)
    (hbi : bi < a.groupIndex.length) :
    lookupWrite o.scArr.writes (targetIndexOf a j i bi) =
      some (a.raw.getD
        ((if geoSpacingX ds < 0 then a.targetWidth - 1 - i else i) +
          (if geoSpacingY ds < 0 then a.targetHeight - 1 - j else j) *
            a.targetWidth +
          bi * a.targetWidth * a.targetHeight) 0) := by
  rw [Convert_lookupWrite a name b0 c0 o h j i bi hj hi hbi]
  unfold sourceIndexOf
  rw [hfx, hfy]
  by_cases h0 : geoSpacingX ds < 0 <;> by_cases h1 : geoSpacingY ds < 0 <;>
    simp [h0, h1]

/-- C3 witness: the amended statement evaluated on the both-spacings-negative
pass of the counterexample, at cell (0,0): the stored value is the raw
buffer's element 1. -/
theorem claim_C3_witness :
    lookupWrite c3Out.scArr.writes 0 = some 20 := by
  have h := claim_C3_amended flippedDataset c3Args ("Elevation") [] 0 c3Out
    (by with_unfolding_all decide) (by with_unfolding_all decide) (by decide)
    0 0 0 (by decide) (by decide) (by decide)
  exact h.trans (by with_unfolding_all decide)

/-- State fields recorded by `ReadDataCore`. -/
theorem ReadDataCore_state (d : GDALDataset) (g : GeometryModel)
    (tdt : GDALDataType) (bytes : ℕ) (t : ReaderState)
    (h : ReadDataCore d g tdt bytes = some t) :
    t.NumberOfBytesPerPixel = bytes ∧ t.TargetDataType = tdt := by
  unfold ReadDataCore at h
  cases hg : GenericReadData d g tdt bytes with
  | none => rw [hg] at h; exact Option.noConfusion h
  | some out =>
      rw [hg] at h
      injection h with h
      subst h
      exact ⟨rfl, rfl⟩

/-- A second `ReadData` over the same dataset and geometry reproduces the
same state: the cached pixel type stabilizes after the first call and the
grid, counter and no-data vectors are recomputed identically. -/
theorem ReadData_idem (d : GDALDataset) (g : GeometryModel)
    (s t : ReaderState) (h : ReadData d g s = some t) :
    ReadData d g t = some t := by
  unfold ReadData at h ⊢
  by_cases hs : s.NumberOfBytesPerPixel = 0
  · rw [if_pos hs] at h
    cases hb : d.bands.head? with
    | none => rw [hb] at h; exact Option.noConfusion h
    | some rasterBand =>
        rw [hb] at h
        obtain ⟨h1, h2⟩ := ReadDataCore_state d g _ _ t h
        by_cases ht : t.NumberOfBytesPerPixel = 0
        · rw [if_pos ht]
          exact h
        · rw [if_neg ht, h2, h1]
          exact h
  · rw [if_neg hs] at h
    obtain ⟨h1, h2⟩ := ReadDataCore_state d g _ _ t h
    have ht : ¬ t.NumberOfBytesPerPixel = 0 := by rw [h1]; exact hs
    rw [if_neg ht, h1, h2]
    exact h

/-- C5: after a Describe, repeated Produce calls without changing extent,
target size or path are idempotent: if a `RequestData` pass from state `s`
commits state `t` and output `o`, a second pass from `t` commits the very
same state and bit-identical output (grid, blanking, cell arrays and field
data), hence also the same live-cell count. -/
theorem claim_C5_idempotent (d : GDALDataset) (g : GeometryModel)
    (s t : ReaderState) (o : FinalOutput)
    (h : RequestData d g s = some (t, o)) : RequestData d g t = some (t, o) := by
  unfold RequestData at h ⊢
  cases hr : ReadData d g s with
  | none => rw [hr] at h; exact Option.noConfusion h
  | some t1 =>
      simp only [hr] at h
      cases hg : t1.UniformGridData with
      | none =>
          simp only [hg] at h
          exact Option.noConfusion h
      | some grid =>
          simp only [hg] at h
          injection h with h
          rw [Prod.mk.injEq] at h
          obtain ⟨h1, h2⟩ := h
          subst h1
          have hrt := ReadData_idem d g s t1 hr
          simp only [hrt, hg]
          rw [h2]

/-- C5 witness: a Produce pass over the 1x1 sample dataset from the state it
itself produced commits the identical state and output. -/
theorem claim_C5_witness :
    RequestData sampleDataset sampleGeometry witnessState =
      some (witnessState, witnessOut) :=
  claim_C5_idempotent sampleDataset sampleGeometry initialReaderState
    witnessState witnessOut (by with_unfolding_all decide)

/-- C8 counterexample: with an RGB palette and the category-name list
["", "foo"], entry 0 has an empty declared name yet receives no annotation
at all, not the synthesized string "Category 0" the claim requires. -/
theorem claim_C8_counterexample :
    (["", "foo"].getD 0 ("")).length = 0 ∧
      annotAt (ReadColorTable twoEntryTable (some ["", "foo"]) newLookupTable) 0 = none ∧
      annotAt (ReadColorTable twoEntryTable (some ["", "foo"]) newLookupTable) 0 ≠
        some ("Category " ++ toString 0) := by
  decide

/-- Lookup in a list built by filter-mapping an index range, when the
produced pairs carry their own index as key: entry `i` yields exactly what
the per-index rule produces. -/
theorem find?_filterMap_range_key (g : ℕ → Option (ℕ × String)) (n i : ℕ)
    (hkey : ∀ j p, g j = some p → p.1 = j) (hi : i < n) :
    ((List.range n).filterMap g).find? (fun p => p.1 == i) = g i := by
  induction n with
  | zero => omega
  | succ m ih =>
      rw [List.range_succ, List.filterMap_append, List.find?_append]
      rcases Nat.lt_succ_iff_lt_or_eq.mp hi with hm | rfl
      · rw [ih hm]
        cases hgi : g i with
        | some p => rfl
        | none =>
            simp only [Option.none_or, List.filterMap_cons, List.filterMap_nil]
            cases hgm : g m with
            | none => simp
            | some q =>
                have hq := hkey m q hgm
                rw [List.find?_cons_of_neg _ (by simp [hq]; omega),
                  List.find?_nil]
      · have hA : ((List.range i).filterMap g).find?
            (fun p => p.1 == i) = none := by
          rw [List.find?_eq_none]
          intro p hp
          obtain ⟨j, hj, hpj⟩ := List.mem_filterMap.mp hp
          rw [List.mem_range] at hj
          have hpj1 := hkey j p hpj
          simp [hpj1]
          omega
        rw [hA]
        simp only [Option.none_or, List.filterMap_cons, List.filterMap_nil]
        cases hgi : g i with
        | none => simp
        | some q =>
            have hq := hkey i q hgi
            rw [List.find?_cons_of_pos _ (by simp [hq])]

/-- C8 (amended): for an RGB palette, entry `i` of the built color table
holds the four channel values divided by 255; its annotation is the band's
category name for `i` when the band has a category-name list and that name
is non-empty, no annotation at all when the list exists but the name is
empty, and the synthesized string "Category i" only when the band has no
category-name list. -/
theorem claim_C8_amended (entries : List GDALColorEntry)
    (categoryNames : Option (List String)) (i : ℕ) (e : GDALColorEntry)
    (he : entries[i]? = some e) :
    (ReadColorTable
        { paletteInterpretation := PaletteInterp.GPI_RGB,
          entries := entries } categoryNames newLookupTable).tableValues[i]? =
      some ((e.c1 : ℚ) / 255, (e.c2 : ℚ) / 255, (e.c3 : ℚ) / 255,
        (e.c4 : ℚ) / 255) ∧
      annotAt (ReadColorTable
        { paletteInterpretation := PaletteInterp.GPI_RGB,
          entries := entries } categoryNames newLookupTable) i =
        (match categoryNames with
         | some names =>
             if (names.getD i ("")).length > 0 then some (names.getD i (""))
             else none
         | none => some ("Category " ++ toString i)) := by
  have hi : i < entries.length := by
    by_contra hc
    rw [List.getElem?_eq_none (by omega)] at he
    exact Option.noConfusion he
  constructor
  · unfold ReadColorTable
    rw [if_neg (by simp)]
    simp only [List.getElem?_map, he, Option.map_some']
  · unfold annotAt ReadColorTable
    rw [if_neg (by simp)]
    have hkey : ∀ (j : ℕ) (p : ℕ × String),
        categoryAnnot categoryNames j = some p → p.1 = j := by
      intro j p hp
      cases categoryNames with
      | none =>
          simp only [categoryAnnot] at hp
          injection hp with hp
          rw [← hp]
      | some names =>
          simp only [categoryAnnot] at hp
          by_cases hl : (names.getD j ("")).length > 0
          · rw [if_pos hl] at hp
            injection hp with hp
            rw [← hp]
          · rw [if_neg hl] at hp
            exact Option.noConfusion hp
    dsimp only
    rw [find?_filterMap_range_key (categoryAnnot categoryNames)
      entries.length i hkey hi]
    cases categoryNames with
    | none => rfl
    | some names =>
        by_cases hl : (names.getD i ("")).length > 0 <;>
          simp [categoryAnnot, hl]

/-- C8 witness: the amended statement evaluated on a two-entry RGB palette
with category names ["", "foo"], at entry 1: channels are divided by 255 and
the non-empty name "foo" becomes the annotation. -/
theorem claim_C8_witness :
    (ReadColorTable
        { paletteInterpretation := PaletteInterp.GPI_RGB,
          entries := twoEntryTable.entries } (some ["", "foo"])
        newLookupTable).tableValues[1]? =
      some (((1 : ℤ) : ℚ) / 255, ((2 : ℤ) : ℚ) / 255,
        ((3 : ℤ) : ℚ) / 255, ((4 : ℤ) : ℚ) / 255) ∧
      annotAt (ReadColorTable
        { paletteInterpretation := PaletteInterp.GPI_RGB,
          entries := twoEntryTable.entries } (some ["", "foo"])
        newLookupTable) 1 = some ("foo") := by
  have h := claim_C8_amended twoEntryTable.entries (some ["", "foo"]) 1
    { c1 := 1, c2 := 2, c3 := 3, c4 := 4 } rfl
  exact ⟨h.1, h.2.trans (by decide)⟩

end GDALModel
